import Mathlib

/-!
Shallow embedding of `src/youtube_utils.py` (class `YouTubeAPI`).

The Python module wraps a remote video-hosting API. External collaborators
(the OAuth flow, the filesystem, the chunked-upload transport and the remote
query responses) are modelled as explicit environment values passed to each
operation; the operations record the client-capability calls they make in a
trace, so that "no collaborator interaction occurs" is a statement about the
trace being empty.
-/

/-- A flat record of string fields, modelling a Python dict of strings
(such as the upload response `{id: "abc123"}` or a `statistics` mapping). -/
abbrev JRec := List (String × String)

/-- Error kinds raised locally by the wrapper:
`ValueError("... not authenticated ...")` and
`FileNotFoundError(f"Video file not found: {file_path}")`, plus the
credential error propagated from the OAuth flow. -/
inductive Err where
  | unauthenticated : Err
  | fileNotFound : String → Err
  | credentialError : Err
deriving DecidableEq, Repr

/-- Result of a Python call: either an exception propagates or a value is
returned. -/
inductive PyResult (α : Type) where
  | raise : Err → PyResult α
  | ret : α → PyResult α
deriving DecidableEq, Repr

/-- The session state: `__init__` stores the secrets-file path and sets
`self.credentials = None` and `self.youtube = None` (lines 29-31).
The credential object and the client handle are opaque; only their presence
matters. -/
structure YouTubeAPI where
  client_secrets_file : String
  credentials : Option Unit
  youtube : Option Unit
deriving DecidableEq, Repr

/-- The scopes fixed in `__init__` (lines 25-28). -/
def SCOPES : List String :=
  ["https://www.googleapis.com/auth/youtube.upload",
   "https://www.googleapis.com/auth/youtube.readonly"]

/-- `YouTubeAPI(client_secrets_file)`: fresh, unauthenticated session. -/
def initAPI (client_secrets_file : String) : YouTubeAPI :=
  ⟨client_secrets_file, none, none⟩

/-- `authenticate()` (lines 33-38): the OAuth flow either yields a credential
(`flowResult = some c`, then both `credentials` and `youtube` are set) or
raises (`flowResult = none`, the exception propagates and the state is
unchanged). -/
def authenticate (s : YouTubeAPI) (flowResult : Option Unit) :
    PyResult YouTubeAPI :=
  match flowResult with
  | none => .raise .credentialError
  | some c => .ret { s with credentials := some c, youtube := some () }

/-- The `snippet` dict built by `upload_video` (lines 66-71). -/
structure Snippet where
  title : String
  description : String
  tags : List String
  categoryId : String
deriving DecidableEq, Repr

/-- The `status` dict built by `upload_video` (lines 72-75). -/
structure StatusGroup where
  privacyStatus : String
  selfDeclaredMadeForKids : Bool
deriving DecidableEq, Repr

/-- The request `body` dict of `upload_video` (lines 65-76). -/
structure UploadBody where
  snippet : Snippet
  status : StatusGroup
deriving DecidableEq, Repr

/-- `body` construction (lines 65-76): `tags or []` maps both `None` and an
empty list to `[]` and keeps any other list, i.e. `tags.getD []`. -/
def upload_body (title description privacy_status : String)
    (tags : Option (List String)) : UploadBody :=
  { snippet := { title := title, description := description,
                 tags := tags.getD [], categoryId := "22" },
    status := { privacyStatus := privacy_status,
                selfDeclaredMadeForKids := false } }

/-- The `MediaFileUpload(file_path, mimetype='video/*', resumable=True)`
object (lines 78-82). -/
structure MediaUpload where
  file_path : String
  mimetype : String
  resumable : Bool
deriving DecidableEq, Repr

/-- The search query built by `list_videos` (lines 131-136). -/
structure SearchQuery where
  part : String
  forMine : Bool
  type : String
  maxResults : Int
deriving DecidableEq, Repr

/-- One observable call on the client capability (`self.youtube`). -/
inductive ClientCall where
  | insertRequest : String → UploadBody → MediaUpload → ClientCall
  | nextChunk : ClientCall
  | channelsList : String → Bool → ClientCall
  | searchList : SearchQuery → ClientCall
deriving DecidableEq, Repr

/-- The transport's progress status object: `status.progress()` is the
fraction `resumable_progress / total_size` in [0, 1] (with `total_size`
positive whenever a status is reported). -/
structure MediaUploadProgress where
  resumable_progress : Nat
  total_size : Nat
deriving DecidableEq, Repr

/-- One result of `request.next_chunk()`: a pair `(status, response)` where
`response` is the final response record or `None`. -/
structure ChunkResult where
  status : Option MediaUploadProgress
  response : Option JRec
deriving DecidableEq, Repr

/-- The line printed for a progress status (line 94):
`f"Upload progress: {int(status.progress() * 100)}%"`. Since the fraction is
non-negative, `int()` truncation of `progress() * 100` is the floor of
`resumable_progress * 100 / total_size`, i.e. natural division. -/
def progressLine (p : MediaUploadProgress) : String :=
  "Upload progress: " ++ toString (p.resumable_progress * 100 / p.total_size)
    ++ "%"

/-- The `while response is None` loop (lines 90-96), run against a transport
that yields the given sequence of chunk results. Returns the final response
(`none` if the transport sequence is exhausted with every response `None`,
i.e. the Python loop would still be running), the printed progress lines, and
the number of `next_chunk()` calls made. -/
def upload_loop : List ChunkResult → Option JRec × List String × Nat
  | [] => (none, [], 0)
  | c :: rest =>
    let ls : List String := match c.status with
      | some p => [progressLine p]
      | none => []
    match c.response with
    | some r => (some r, ls, 1)
    | none =>
      match upload_loop rest with
      | (r, ls2, n) => (r, ls ++ ls2, n + 1)

/-- Environment of one `upload_video` call: `os.path.exists` and the
transport's chunk results. -/
structure UploadEnv where
  fileExists : String → Bool
  chunks : List ChunkResult

/-- Outcome of `upload_video`: a raised error, a returned response, or a
still-running loop (the transport never produced a final response). -/
inductive UploadOutcome where
  | err : Err → UploadOutcome
  | ok : JRec → UploadOutcome
  | hangs : UploadOutcome
deriving DecidableEq, Repr

/-- Observable result of one `upload_video` call: its outcome, the lines it
printed, and the client-capability calls it made. -/
structure UploadResult where
  outcome : UploadOutcome
  printed : List String
  calls : List ClientCall
deriving DecidableEq, Repr

/-- `upload_video` (lines 40-96): guard on `self.youtube` (lines 59-60),
then on `os.path.exists(file_path)` (lines 62-63), then build `body`
(lines 65-76) and the media object (lines 78-82), create the insert request
with `part=','.join(body.keys())` (lines 84-88) and run the chunk loop
(lines 90-96). -/
def upload_video (s : YouTubeAPI) (file_path title description : String)
    (privacy_status : String) (tags : Option (List String))
    (env : UploadEnv) : UploadResult :=
  match s.youtube with
  | none => ⟨.err .unauthenticated, [], []⟩
  | some _ =>
    if env.fileExists file_path = false then
      ⟨.err (.fileNotFound file_path), [], []⟩
    else
      let body := upload_body title description privacy_status tags
      let media : MediaUpload := ⟨file_path, "video/*", true⟩
      let req : ClientCall :=
        .insertRequest (String.intercalate "," ["snippet", "status"]) body media
      let res := upload_loop env.chunks
      ⟨match res.1 with
        | some r => .ok r
        | none => .hangs,
       res.2.1,
       req :: List.replicate res.2.2 ClientCall.nextChunk⟩

/-- One item of the `channels().list` response: the code reads
`item['statistics']` (line 115). -/
structure ChannelItem where
  statistics : JRec
deriving DecidableEq, Repr

/-- The remote response to `channels().list`: `items = none` models a
response dict without an `'items'` key, `items = some l` a present list. -/
structure ChannelListResponse where
  items : Option (List ChannelItem)
deriving DecidableEq, Repr

/-- Environment of one `get_channel_stats` call. -/
structure ChannelsEnv where
  response : ChannelListResponse

/-- `get_channel_stats` (lines 98-116): guard on `self.youtube`
(lines 105-106), query `part="statistics", mine=True` (lines 108-112), then
`if 'items' in response and response['items']: return
response['items'][0]['statistics']` else `return {}` (lines 114-116). -/
def get_channel_stats (s : YouTubeAPI) (env : ChannelsEnv) :
    PyResult JRec × List ClientCall :=
  match s.youtube with
  | none => (.raise .unauthenticated, [])
  | some _ =>
    let stats : JRec := match env.response.items with
      | some (x :: _) => x.statistics
      | some [] => []
      | none => []
    (.ret stats, [.channelsList "statistics" true])

/-- The remote response to `search().list`: `items = none` models a response
dict without an `'items'` key. -/
structure SearchListResponse where
  items : Option (List JRec)
deriving DecidableEq, Repr

/-- Environment of one `list_videos` call. -/
structure SearchEnv where
  response : SearchListResponse

/-- `list_videos` (lines 118-139): guard on `self.youtube` (lines 128-129),
query `part="snippet", forMine=True, type="video", maxResults=max_results`
(lines 131-137), then `return response.get('items', [])` (line 139). -/
def list_videos (s : YouTubeAPI) (max_results : Int) (env : SearchEnv) :
    PyResult (List JRec) × List ClientCall :=
  match s.youtube with
  | none => (.raise .unauthenticated, [])
  | some _ =>
    let q : SearchQuery := ⟨"snippet", true, "video", max_results⟩
    (.ret (env.response.items.getD []), [.searchList q])

/-- One invocation of a session operation, carrying its environment, for the
reachable-state analysis. -/
inductive Op where
  | auth : Option Unit → Op
  | upload : String → String → String → String → Option (List String) →
      UploadEnv → Op
  | stats : ChannelsEnv → Op
  | listV : Int → SearchEnv → Op

/-- State after one operation: `authenticate` on success sets both fields,
on failure the exception propagates with the state unchanged; the three
query operations never assign to `self` (they only read `self.youtube`). -/
def applyOp (s : YouTubeAPI) : Op → YouTubeAPI
  | .auth fr =>
    match authenticate s fr with
    | .ret s2 => s2
    | .raise _ => s
  | .upload _ _ _ _ _ _ => s
  | .stats _ => s
  | .listV _ _ => s

/-- State after a sequence of operations. -/
def runOps (s : YouTubeAPI) : List Op → YouTubeAPI
  | [] => s
  | op :: ops => runOps (applyOp s op) ops

/-- The session invariant: the client handle is present exactly when the
credentials are. -/
abbrev authInv (s : YouTubeAPI) : Prop :=
  s.youtube.isSome = s.credentials.isSome

/-! Concrete fixtures used by witnesses and counterexamples. -/

/-- An unauthenticated session, as produced by `__init__`. -/
def sUnauth : YouTubeAPI := initAPI "client_secrets.json"

/-- An authenticated session (after a successful `authenticate()`). -/
def sAuth : YouTubeAPI := ⟨"client_secrets.json", some (), some ()⟩

/-- Upload environment where every path exists and the transport yields a
final response immediately. -/
def envImmediate : UploadEnv :=
  ⟨fun _ => true, [⟨none, some [("id", "abc123")]⟩]⟩

/-- Upload environment where no path exists. -/
def envNoFile : UploadEnv := ⟨fun _ => false, []⟩

/-- Transport of the end-to-end scenario: progress 0.5, progress 0.9, then
the final response `{id: "abc123"}`. -/
def envScenario : UploadEnv :=
  ⟨fun _ => true,
   [⟨some ⟨5, 10⟩, none⟩,
    ⟨some ⟨9, 10⟩, none⟩,
    ⟨none, some [("id", "abc123")]⟩]⟩

/-- The run of the end-to-end scenario. -/
def runScenario : UploadResult :=
  upload_video sAuth "video.mp4" "t" "d" "private" none envScenario

/-! Helper lemmas about the chunk loop. -/

/-- Unfolding: one iteration whose `response` is `None` prints its progress
line (if any) and continues with the rest of the transport trace. -/
theorem upload_loop_cons_none (c : ChunkResult) (rest : List ChunkResult)
    (hc : c.response = none) :
    upload_loop (c :: rest) =
      ((upload_loop rest).1,
       (match c.status with
         | some p => [progressLine p]
         | none => []) ++ (upload_loop rest).2.1,
       (upload_loop rest).2.2 + 1) := by
  rcases h2 : upload_loop rest with ⟨r, ls2, n⟩
  simp [upload_loop, hc, h2]

/-- Unfolding: one iteration whose `response` is non-`None` ends the loop at
once, returning that response after a single `next_chunk()` call. -/
theorem upload_loop_cons_some (c : ChunkResult) (rest : List ChunkResult)
    (r : JRec) (hc : c.response = some r) :
    upload_loop (c :: rest) =
      (some r,
       (match c.status with
         | some p => [progressLine p]
         | none => []), 1) := by
  simp [upload_loop, hc]

/-- A transport trace whose responses are all `None` never ends the loop:
the loop consumes every result (one `next_chunk()` call each) and still has
no final response. -/
theorem upload_loop_progress_only (l : List ChunkResult)
    (h : ∀ x ∈ l, x.response = none) :
    (upload_loop l).1 = none ∧ (upload_loop l).2.2 = l.length := by
  induction l with
  | nil => simp [upload_loop]
  | cons c rest ih =>
    have hc : c.response = none := h c (List.mem_cons_self c rest)
    have ih2 := ih (fun x hx => h x (List.mem_cons_of_mem c hx))
    rw [upload_loop_cons_none c rest hc]
    exact ⟨ih2.1, by simp [ih2.2]⟩

/-- The loop ends at the first non-`None` response, returning it, after
exactly one `next_chunk()` call per preceding progress-only result plus the
final one. -/
theorem upload_loop_stops_at_first_response (pre : List ChunkResult)
    (c : ChunkResult) (rest : List ChunkResult) (r : JRec)
    (hpre : ∀ x ∈ pre, x.response = none) (hc : c.response = some r) :
    (upload_loop (pre ++ c :: rest)).1 = some r ∧
    (upload_loop (pre ++ c :: rest)).2.2 = pre.length + 1 := by
  induction pre with
  | nil =>
    rw [List.nil_append, upload_loop_cons_some c rest r hc]
    exact ⟨rfl, rfl⟩
  | cons a pre ih =>
    have ha : a.response = none := hpre a (List.mem_cons_self a pre)
    have ih2 := ih (fun x hx => hpre x (List.mem_cons_of_mem a hx))
    rw [List.cons_append, upload_loop_cons_none a (pre ++ c :: rest) ha]
    exact ⟨ih2.1, by rw [ih2.2, List.length_cons]⟩

/-! Claim theorems. -/

/-- C1: invoking upload_video, get_channel_stats or list_videos on a session
whose client handle is `None` raises the unauthenticated error with an empty
client-call trace: no collaborator interaction occurs. -/
theorem c1_unauthenticated_ops_fail_before_collaborator_calls
    (s : YouTubeAPI) (h : s.youtube = none)
    (fp t d ps : String) (tags : Option (List String)) (envU : UploadEnv)
    (envC : ChannelsEnv) (n : Int) (envS : SearchEnv) :
    upload_video s fp t d ps tags envU = ⟨.err .unauthenticated, [], []⟩
  ∧ get_channel_stats s envC = (.raise .unauthenticated, [])
  ∧ list_videos s n envS = (.raise .unauthenticated, []) := by
  refine ⟨?_, ?_, ?_⟩ <;>
    simp [upload_video, get_channel_stats, list_videos, h]

/-- C1 witness: the three operations on a freshly constructed session. -/
theorem c1_witness :
    sUnauth.youtube = none
  ∧ upload_video sUnauth "f.mp4" "t" "d" "private" none envNoFile =
      ⟨.err .unauthenticated, [], []⟩
  ∧ get_channel_stats sUnauth ⟨⟨none⟩⟩ = (.raise .unauthenticated, [])
  ∧ list_videos sUnauth 5 ⟨⟨none⟩⟩ = (.raise .unauthenticated, []) := by
  have h := c1_unauthenticated_ops_fail_before_collaborator_calls sUnauth rfl
    "f.mp4" "t" "d" "private" none envNoFile ⟨⟨none⟩⟩ 5 ⟨⟨none⟩⟩
  exact ⟨rfl, h.1, h.2.1, h.2.2⟩

/-- C5: on an authenticated session, upload_video with a path that does not
exist raises the file-not-found error with an empty client-call trace: the
check is pre-flight, before any network interaction. -/
theorem c5_upload_missing_file_fails_preflight
    (s : YouTubeAPI) (env : UploadEnv) (fp t d ps : String)
    (tags : Option (List String))
    (hauth : s.youtube.isSome = true) (hfile : env.fileExists fp = false) :
    upload_video s fp t d ps tags env = ⟨.err (.fileNotFound fp), [], []⟩ := by
  rcases hy : s.youtube with _ | c
  · rw [hy] at hauth; simp at hauth
  · simp [upload_video, hy, hfile]

/-- C5 witness: authenticated session, environment where no path exists. -/
theorem c5_witness :
    sAuth.youtube.isSome = true
  ∧ envNoFile.fileExists "missing.mp4" = false
  ∧ upload_video sAuth "missing.mp4" "t" "d" "private" none envNoFile =
      ⟨.err (.fileNotFound "missing.mp4"), [], []⟩ :=
  ⟨rfl, rfl, c5_upload_missing_file_fails_preflight sAuth envNoFile
    "missing.mp4" "t" "d" "private" none rfl rfl⟩

/-- C9: when the session is unauthenticated and the file also does not
exist, upload_video raises the unauthenticated error, not file-not-found:
the authentication check precedes the file-existence check. -/
theorem c9_auth_check_precedes_file_check
    (s : YouTubeAPI) (env : UploadEnv) (fp t d ps : String)
    (tags : Option (List String))
    (h : s.youtube = none) (hfile : env.fileExists fp = false) :
    (upload_video s fp t d ps tags env).outcome = .err .unauthenticated
  ∧ (upload_video s fp t d ps tags env).outcome ≠ .err (.fileNotFound fp) := by
  have he : upload_video s fp t d ps tags env =
      ⟨.err .unauthenticated, [], []⟩ := by
    simp [upload_video, h]
  rw [he]
  exact ⟨rfl, by simp⟩

/-- C9 witness: fresh session, environment where no path exists. -/
theorem c9_witness :
    sUnauth.youtube = none
  ∧ envNoFile.fileExists "missing.mp4" = false
  ∧ (upload_video sUnauth "missing.mp4" "t" "d" "private" none
       envNoFile).outcome = .err .unauthenticated
  ∧ (upload_video sUnauth "missing.mp4" "t" "d" "private" none
       envNoFile).outcome ≠ .err (.fileNotFound "missing.mp4") := by
  have h := c9_auth_check_precedes_file_check sUnauth envNoFile
    "missing.mp4" "t" "d" "private" none rfl rfl
  exact ⟨rfl, rfl, h.1, h.2⟩

/-- C4: on an authenticated session, get_channel_stats returns (without
error) the empty mapping when the response's item list is empty, and exactly
the statistics sub-record of the first item when it is non-empty. -/
theorem c4_channel_stats_first_item_or_empty
    (s : YouTubeAPI) (env : ChannelsEnv) (h : s.youtube.isSome = true) :
    (env.response.items = some [] →
      get_channel_stats s env = (.ret [], [.channelsList "statistics" true]))
  ∧ (∀ (x : ChannelItem) (xs : List ChannelItem),
      env.response.items = some (x :: xs) →
      get_channel_stats s env =
        (.ret x.statistics, [.channelsList "statistics" true])) := by
  rcases hy : s.youtube with _ | c
  · rw [hy] at h; simp at h
  · constructor
    · intro hi; simp [get_channel_stats, hy, hi]
    · intro x xs hi; simp [get_channel_stats, hy, hi]

/-- C4 witness: empty item list and a singleton item list. -/
theorem c4_witness :
    sAuth.youtube.isSome = true
  ∧ get_channel_stats sAuth ⟨⟨some []⟩⟩ =
      (.ret [], [.channelsList "statistics" true])
  ∧ get_channel_stats sAuth ⟨⟨some [⟨[("viewCount", "100"),
        ("subscriberCount", "10")]⟩]⟩⟩ =
      (.ret [("viewCount", "100"), ("subscriberCount", "10")],
       [.channelsList "statistics" true]) :=
  ⟨rfl,
   (c4_channel_stats_first_item_or_empty sAuth ⟨⟨some []⟩⟩ rfl).1 rfl,
   (c4_channel_stats_first_item_or_empty sAuth
      ⟨⟨some [⟨[("viewCount", "100"), ("subscriberCount", "10")]⟩]⟩⟩ rfl).2
      ⟨[("viewCount", "100"), ("subscriberCount", "10")]⟩ [] rfl⟩

/-- C6: on an authenticated session, list_videos submits exactly one search
query with part "snippet", forMine true, type "video" and the given
max_results passed through unchanged, and returns (without error) the empty
sequence when the response's item list is empty. -/
theorem c6_list_videos_caps_and_soft_fails
    (s : YouTubeAPI) (n : Int) (env : SearchEnv)
    (h : s.youtube.isSome = true) :
    (list_videos s n env).2 = [.searchList ⟨"snippet", true, "video", n⟩]
  ∧ (env.response.items = some [] → (list_videos s n env).1 = .ret []) := by
  rcases hy : s.youtube with _ | c
  · rw [hy] at h; simp at h
  · exact ⟨by simp [list_videos, hy],
      fun hi => by simp [list_videos, hy, hi]⟩

/-- C6 witness: max_results 50 with an empty item list. -/
theorem c6_witness :
    sAuth.youtube.isSome = true
  ∧ (list_videos sAuth 50 ⟨⟨some []⟩⟩).2 =
      [.searchList ⟨"snippet", true, "video", 50⟩]
  ∧ (list_videos sAuth 50 ⟨⟨some []⟩⟩).1 = .ret [] :=
  ⟨rfl, (c6_list_videos_caps_and_soft_fails sAuth 50 ⟨⟨some []⟩⟩ rfl).1,
   (c6_list_videos_caps_and_soft_fails sAuth 50 ⟨⟨some []⟩⟩ rfl).2 rfl⟩

/-- C10: on an authenticated session, when the response has no items key at
all (not merely an empty list), get_channel_stats returns the empty mapping
and list_videos the empty sequence, without error. -/
theorem c10_missing_items_key_soft_fails
    (s : YouTubeAPI) (envC : ChannelsEnv) (n : Int) (envS : SearchEnv)
    (h : s.youtube.isSome = true)
    (hc : envC.response.items = none) (hs : envS.response.items = none) :
    (get_channel_stats s envC).1 = .ret []
  ∧ (list_videos s n envS).1 = .ret [] := by
  rcases hy : s.youtube with _ | c
  · rw [hy] at h; simp at h
  · exact ⟨by simp [get_channel_stats, hy, hc],
      by simp [list_videos, hy, hs]⟩

/-- C10 witness: responses without an items key. -/
theorem c10_witness :
    sAuth.youtube.isSome = true
  ∧ (get_channel_stats sAuth ⟨⟨none⟩⟩).1 = .ret []
  ∧ (list_videos sAuth 50 ⟨⟨none⟩⟩).1 = .ret [] :=
  ⟨rfl, (c10_missing_items_key_soft_fails sAuth ⟨⟨none⟩⟩ 50 ⟨⟨none⟩⟩
      rfl rfl rfl).1,
   (c10_missing_items_key_soft_fails sAuth ⟨⟨none⟩⟩ 50 ⟨⟨none⟩⟩
      rfl rfl rfl).2⟩

/-- C2: on an authenticated session with an existing file, upload_video's
insert request carries a body whose snippet group has exactly the given
title and description, the given tags (empty when the default `None` is
used) and categoryId "22", and whose status group has the given
privacyStatus ("private" when the default is used) and
selfDeclaredMadeForKids false for every input. -/
theorem c2_upload_body_marshals_parameters
    (s : YouTubeAPI) (env : UploadEnv) (fp t d ps : String)
    (tags : Option (List String))
    (hauth : s.youtube.isSome = true) (hfile : env.fileExists fp = true) :
    (∃ rest, (upload_video s fp t d ps tags env).calls =
      ClientCall.insertRequest "snippet,status" (upload_body t d ps tags)
        ⟨fp, "video/*", true⟩ :: rest)
  ∧ (upload_body t d ps tags).snippet.title = t
  ∧ (upload_body t d ps tags).snippet.description = d
  ∧ (upload_body t d ps tags).snippet.tags = tags.getD []
  ∧ (upload_body t d ps none).snippet.tags = []
  ∧ (upload_body t d ps tags).snippet.categoryId = "22"
  ∧ (upload_body t d ps tags).status.privacyStatus = ps
  ∧ (upload_body t d "private" tags).status.privacyStatus = "private"
  ∧ (upload_body t d ps tags).status.selfDeclaredMadeForKids = false := by
  rcases hy : s.youtube with _ | c
  · rw [hy] at hauth; simp at hauth
  · refine ⟨⟨List.replicate (upload_loop env.chunks).2.2 ClientCall.nextChunk,
      ?_⟩, rfl, rfl, rfl, rfl, rfl, rfl, rfl, rfl⟩
    simp [upload_video, hy, hfile]
    rfl

/-- C2 witness: concrete title, description, privacy status and tags. -/
theorem c2_witness :
    sAuth.youtube.isSome = true
  ∧ envImmediate.fileExists "v.mp4" = true
  ∧ ((∃ rest,
        (upload_video sAuth "v.mp4" "my title" "my desc" "unlisted"
          (some ["a", "b"]) envImmediate).calls =
        ClientCall.insertRequest "snippet,status"
          (upload_body "my title" "my desc" "unlisted" (some ["a", "b"]))
          ⟨"v.mp4", "video/*", true⟩ :: rest)
    ∧ (upload_body "my title" "my desc" "unlisted"
        (some ["a", "b"])).snippet.title = "my title"
    ∧ (upload_body "my title" "my desc" "unlisted"
        (some ["a", "b"])).snippet.description = "my desc"
    ∧ (upload_body "my title" "my desc" "unlisted"
        (some ["a", "b"])).snippet.tags = (some ["a", "b"]).getD []
    ∧ (upload_body "my title" "my desc" "unlisted" none).snippet.tags = []
    ∧ (upload_body "my title" "my desc" "unlisted"
        (some ["a", "b"])).snippet.categoryId = "22"
    ∧ (upload_body "my title" "my desc" "unlisted"
        (some ["a", "b"])).status.privacyStatus = "unlisted"
    ∧ (upload_body "my title" "my desc" "private"
        (some ["a", "b"])).status.privacyStatus = "private"
    ∧ (upload_body "my title" "my desc" "unlisted"
        (some ["a", "b"])).status.selfDeclaredMadeForKids = false) :=
  ⟨rfl, rfl, c2_upload_body_marshals_parameters sAuth envImmediate "v.mp4"
    "my title" "my desc" "unlisted" (some ["a", "b"]) rfl rfl⟩

/-- C3: the upload loop makes exactly one next_chunk call per transport
result it consumes, does not end while the response component is `None`
(however many progress-only statuses appear), and ends returning the final
response exactly at the first non-`None` response; accordingly, an
authenticated upload on an existing file issues the insert request followed
by exactly one nextChunk call per consumed transport result, and returns a
response exactly when the loop produced one. -/
theorem c3_upload_loop_one_call_per_chunk_until_response
    (pre rest l : List ChunkResult) (c : ChunkResult) (r : JRec)
    (hpre : ∀ x ∈ pre, x.response = none) (hc : c.response = some r)
    (hl : ∀ x ∈ l, x.response = none)
    (s : YouTubeAPI) (fp t d ps : String) (tags : Option (List String))
    (env : UploadEnv)
    (hauth : s.youtube.isSome = true) (hfile : env.fileExists fp = true) :
    (upload_loop (pre ++ c :: rest)).1 = some r
  ∧ (upload_loop (pre ++ c :: rest)).2.2 = pre.length + 1
  ∧ (upload_loop l).1 = none
  ∧ (upload_loop l).2.2 = l.length
  ∧ (upload_video s fp t d ps tags env).calls =
      ClientCall.insertRequest "snippet,status" (upload_body t d ps tags)
        ⟨fp, "video/*", true⟩
      :: List.replicate (upload_loop env.chunks).2.2 ClientCall.nextChunk
  ∧ (∀ r2 : JRec, (upload_video s fp t d ps tags env).outcome = .ok r2 ↔
      (upload_loop env.chunks).1 = some r2) := by
  obtain ⟨h1, h2⟩ := upload_loop_stops_at_first_response pre c rest r hpre hc
  obtain ⟨h3, h4⟩ := upload_loop_progress_only l hl
  rcases hy : s.youtube with _ | cl
  · rw [hy] at hauth; simp at hauth
  · refine ⟨h1, h2, h3, h4, ?_, ?_⟩
    · simp [upload_video, hy, hfile]
      rfl
    · intro r2
      simp only [upload_video, hy, hfile, Bool.true_eq_false, if_false]
      rcases h5 : (upload_loop env.chunks).1 with _ | r3 <;>
        simp [h5]

/-- C3 witness: one progress-only result before the final response, a
progress-only trace of length two, and a concrete authenticated upload. -/
theorem c3_witness :
    (upload_loop ([⟨some ⟨1, 2⟩, none⟩] ++
        ⟨none, some [("id", "x")]⟩ :: [])).1 = some [("id", "x")]
  ∧ (upload_loop ([⟨some ⟨1, 2⟩, none⟩] ++
        ⟨none, some [("id", "x")]⟩ :: [])).2.2 = 1 + 1
  ∧ (upload_loop [⟨some ⟨1, 4⟩, none⟩, ⟨some ⟨1, 2⟩, none⟩]).1 = none
  ∧ (upload_loop [⟨some ⟨1, 4⟩, none⟩, ⟨some ⟨1, 2⟩, none⟩]).2.2 =
      [(⟨some ⟨1, 4⟩, none⟩ : ChunkResult), ⟨some ⟨1, 2⟩, none⟩].length
  ∧ (upload_video sAuth "v.mp4" "t" "d" "private" none envImmediate).calls =
      ClientCall.insertRequest "snippet,status"
        (upload_body "t" "d" "private" none) ⟨"v.mp4", "video/*", true⟩
      :: List.replicate (upload_loop envImmediate.chunks).2.2
           ClientCall.nextChunk
  ∧ (∀ r2 : JRec,
      (upload_video sAuth "v.mp4" "t" "d" "private" none
        envImmediate).outcome = .ok r2 ↔
      (upload_loop envImmediate.chunks).1 = some r2) :=
  c3_upload_loop_one_call_per_chunk_until_response
    [⟨some ⟨1, 2⟩, none⟩] [] [⟨some ⟨1, 4⟩, none⟩, ⟨some ⟨1, 2⟩, none⟩]
    ⟨none, some [("id", "x")]⟩ [("id", "x")]
    (by decide) rfl (by decide)
    sAuth "v.mp4" "t" "d" "private" none envImmediate rfl rfl

/-- C7 counterexample: in the scenario (progress 0.5, progress 0.9, then the
final response), the loop prints two progress lines, not three: the final
chunk result carries no status object, so the third next_chunk call prints
nothing. -/
theorem c7_counterexample :
    runScenario.printed.length = 2 ∧ ¬ runScenario.printed.length = 3 := by
  decide

/-- C7 amended: the scenario prints exactly the two progress lines 50% and
90% across three next_chunk calls, then the loop ends and the returned
record equals the final response. -/
theorem c7_amended_scenario_two_lines_three_calls
    : runScenario.printed =
        ["Upload progress: 50%", "Upload progress: 90%"]
  ∧ runScenario.outcome = .ok [("id", "abc123")]
  ∧ runScenario.calls =
      [ClientCall.insertRequest "snippet,status"
         (upload_body "t" "d" "private" none) ⟨"video.mp4", "video/*", true⟩,
       .nextChunk, .nextChunk, .nextChunk] := by
  decide

/-- Preservation: every operation keeps the handle-credentials invariant. -/
theorem applyOp_preserves_authInv (s : YouTubeAPI) (op : Op)
    (h : authInv s) : authInv (applyOp s op) := by
  cases op with
  | auth fr =>
    cases fr with
    | none => simpa [applyOp, authenticate] using h
    | some c => simp [applyOp, authenticate]
  | upload fp t d ps tags env => exact h
  | stats env => exact h
  | listV n env => exact h

/-- C8: every session state reachable from construction by any sequence of
operations satisfies the invariant that the client handle is present exactly
when the credentials are; and the transition is one-way: no operation takes
a session whose handle is present back to one without it. -/
theorem c8_reachable_states_invariant_one_way
    (f : String) (ops : List Op) :
    authInv (runOps (initAPI f) ops)
  ∧ (∀ (s : YouTubeAPI) (op : Op), s.youtube.isSome = true →
      (applyOp s op).youtube.isSome = true) := by
  constructor
  · have key : ∀ (ops : List Op) (s : YouTubeAPI), authInv s →
        authInv (runOps s ops) := by
      intro ops
      induction ops with
      | nil => intro s h; exact h
      | cons op ops ih =>
        intro s h
        exact ih (applyOp s op) (applyOp_preserves_authInv s op h)
    exact key ops (initAPI f) rfl
  · intro s op h
    cases op with
    | auth fr =>
      cases fr with
      | none => exact h
      | some c => rfl
    | upload fp t d ps tags env => exact h
    | stats env => exact h
    | listV n env => exact h

/-- C8 witness: a successful authentication from the fresh state, and the
one-way step on an authenticated state hit by a failing re-authentication. -/
theorem c8_witness :
    authInv (runOps (initAPI "client_secrets.json")
      [Op.auth (some ()), Op.stats ⟨⟨none⟩⟩, Op.listV 5 ⟨⟨none⟩⟩])
  ∧ (applyOp sAuth (Op.auth none)).youtube.isSome = true :=
  ⟨(c8_reachable_states_invariant_one_way "client_secrets.json"
      [Op.auth (some ()), Op.stats ⟨⟨none⟩⟩, Op.listV 5 ⟨⟨none⟩⟩]).1,
   (c8_reachable_states_invariant_one_way "client_secrets.json" []).2
      sAuth (Op.auth none) rfl⟩
